import Mathlib

/-!
Shallow embedding of the "Legacy Arc To-do" application core (src/script.js).

The JavaScript file contains two concatenated revisions; at runtime the later
function declarations shadow the earlier ones, so the effective program is the
second half of the file (the "local-key era", lines 478-1186).  The definitions
below are translated from that effective code:

* `todayKey` / `formatLocalDate` (script.js lines 491-505): local zero-padded
  `YYYY-MM-DD` keys built from the local calendar components.
* the task store and its operations (`createTask`, delete, the two toggle
  handlers, the Save Day / `finalizeDay` handler, the legacy-ISO migration in
  `initTodos`).
* the streak calculator of `initCalendar` (lines 889-921).

JavaScript `Date` objects are modelled as whole-day counts (a `Date` is a
timestamp; `setDate(getDate()-1)` moves it one civil day); the conversion
between day numbers and calendar triples uses the standard civil-calendar
algorithm, so that `formatLocalDate` is executable on concrete inputs.
-/

namespace LegacyArc

/-- A task record, as stored under the `todoApp` key:
`{id, text, completed, createdAt (YYYY-MM-DD), completedAt (YYYY-MM-DD or null)}`.
`none` models JavaScript `null`. -/
structure Task where
  id : String
  text : String
  completed : Bool
  createdAt : Option String
  completedAt : Option String
deriving DecidableEq, Repr

/-- The singleton application state persisted under `todoApp`. -/
structure AppState where
  title : String
  appTitle : String
  theme : String
  tasks : List Task
deriving DecidableEq, Repr

/-- The state `loadState()` returns when nothing is stored (second-era default). -/
def emptyState : AppState :=
  { appTitle := "Legacy Arc", title := "", tasks := [], theme := "light" }

/-! ## Local date keys (script.js lines 491-505) -/

/-- The character of a decimal digit (models JS number-to-string at digit level). -/
def digitChar (n : Nat) : Char := Char.ofNat (48 + n)

/-- Fuel-driven decimal printer: accumulates the digits of `n` in front of
`acc`.  The fuel only bounds the digit count, it never changes the result as
long as it exceeds the number of digits. -/
def natDigitsAux : Nat → Nat → List Char → List Char
  | 0, _, acc => acc
  | fuel + 1, n, acc =>
    if n < 10 then digitChar n :: acc
    else natDigitsAux fuel (n / 10) (digitChar (n % 10) :: acc)

/-- Decimal rendering of a natural number as a list of characters
(models the JS template interpolation of a number). -/
def natDigits (n : Nat) : List Char := natDigitsAux (n + 1) n []

/-- Rendering of `String(n).padStart(2, '0')`: two characters, zero-padded. -/
def padTwo (n : Nat) : List Char :=
  if n < 10 then '0' :: natDigits n else natDigits n

/-- The character list of the key `` `${y}-${m}-${d}` `` built by
`todayKey` / `formatLocalDate`: the year unpadded, month and day two-digit. -/
def keyChars (y m d : Nat) : List Char :=
  natDigits y ++ '-' :: (padTwo m ++ '-' :: padTwo d)

/-- A calendar date (local civil year, month 1-12, day 1-31). -/
structure YMD where
  y : Nat
  m : Nat
  d : Nat
deriving DecidableEq, Repr

/-- Day number of a civil date (days since 0000-03-01, civil calendar),
the model of the timestamp inside a JS `Date` at local midnight. -/
def daysFromCivil (y m d : Nat) : Nat :=
  let yy := if m ≤ 2 then y - 1 else y
  let era := yy / 400
  let yoe := yy % 400
  let mp := if m > 2 then m - 3 else m + 9
  let doy := (153 * mp + 2) / 5 + d - 1
  let doe := yoe * 365 + yoe / 4 - yoe / 100 + doy
  era * 146097 + doe

/-- Civil date of a day number (inverse of `daysFromCivil`). -/
def civilFromDays (z : Nat) : YMD :=
  let era := z / 146097
  let doe := z % 146097
  let yoe := (doe - doe / 1460 + doe / 36524 - doe / 146096) / 365
  let yy := yoe + era * 400
  let doy := doe - (365 * yoe + yoe / 4 - yoe / 100)
  let mp := (5 * doy + 2) / 153
  let d := doy - (153 * mp + 2) / 5 + 1
  let m := if mp < 10 then mp + 3 else mp - 9
  if m ≤ 2 then { y := yy + 1, m := m, d := d } else { y := yy, m := m, d := d }

/-- The function `formatLocalDate` (script.js lines 498-505): local `YYYY-MM-DD` of a `Date`,
built from `getFullYear` / `getMonth`+1 / `getDate` with `padStart(2,'0')`.
The argument is the local civil day number of the `Date`. -/
def formatLocalDate (n : Nat) : String :=
  let c := civilFromDays n
  String.mk (keyChars c.y c.m c.d)

/-- A point in time: UTC civil day number, minute of the UTC day, and the
device timezone offset in minutes (local wall time = UTC + `tz`). -/
structure Instant where
  day : Nat
  minute : Nat
  tz : Int
deriving DecidableEq, Repr

/-- The local civil day number an instant falls on. -/
def localDayNum (t : Instant) : Nat :=
  ((((t.day * 1440 + t.minute : Nat) : Int) + t.tz).ediv 1440).toNat

/-- The function `todayKey` (script.js lines 491-497, the declaration that wins at runtime):
the local `YYYY-MM-DD` key of an instant, computed from the local calendar
components `getFullYear` / `getMonth`+1 / `getDate`. -/
def todayKey (t : Instant) : String :=
  formatLocalDate (localDayNum t)

/-- The first-era `todayKey` (script.js lines 14-17), shadowed at runtime:
`date.toISOString().slice(0,10)`, i.e. the UTC calendar day of the instant. -/
def utcSliceKey (t : Instant) : String :=
  let c := civilFromDays t.day
  String.mk (keyChars c.y c.m c.d)

/-- Lexicographic order on character lists (standard string `<`). -/
def lexLt : List Char → List Char → Bool
  | _, [] => false
  | [], _ :: _ => true
  | a :: as, b :: bs => if a < b then true else if b < a then false else lexLt as bs

/-- Chronological order of calendar days, as lexicographic order on
(year, month, day) triples. -/
def dateLt (y1 m1 d1 y2 m2 d2 : Nat) : Prop :=
  y1 < y2 ∨ (y1 = y2 ∧ (m1 < m2 ∨ (m1 = m2 ∧ d1 < d2)))

instance (y1 m1 d1 y2 m2 d2 : Nat) : Decidable (dateLt y1 m1 d1 y2 m2 d2) := by
  unfold dateLt; infer_instance

/-! ## Task store operations (second-era handlers of script.js)

Every handler follows the same shape: mutate the in-memory `state`, then
`saveState(state)`.  Persistence is the identity on the state value, so the
embedding is the mutation itself.  `today` always stands for the value
`todayKey()` returns at the moment the handler runs; `id` for the freshly
generated `Date.now().toString()`. -/

/-- JavaScript `String.prototype.trim`: drop leading and trailing whitespace. -/
def jsTrim (s : String) : String :=
  String.mk (((s.data.dropWhile Char.isWhitespace).reverse.dropWhile
    Char.isWhitespace).reverse)

/-- JavaScript `String.prototype.includes` for a single character. -/
def jsIncludes (s : String) (c : Char) : Bool :=
  s.data.contains c

/-- The `taskForm` submit handler (script.js lines 715-730): trim the input,
bail out when empty, otherwise prepend the new task. -/
def createTask (s : AppState) (text today id : String) : AppState :=
  let t := jsTrim text
  if t = "" then s
  else { s with tasks :=
    { id := id, text := t, completed := false,
      createdAt := some today, completedAt := none } :: s.tasks }

/-- The delete branch of the click handlers (script.js lines 736-741 and
1132-1139): `state.tasks = state.tasks.filter(t => t.id !== id)`. -/
def deleteTask (s : AppState) (id : String) : AppState :=
  { s with tasks := s.tasks.filter (fun t => t.id ≠ id) }

/-- Model of `state.tasks.find(t => t.id === id)` followed by an in-place mutation:
rewrite the first task matching the predicate, leave everything else alone. -/
def updateFirst (p : Task → Prop) [DecidablePred p] (f : Task → Task) :
    List Task → List Task
  | [] => []
  | t :: ts => if p t then f t :: ts else t :: updateFirst p f ts

/-- The checkbox branch of the `taskList` click handler (script.js lines
743-752): flip `completed` of the first task with the given id; the source
comments that `completedAt` is only to be set when the Save Day button is
clicked, so it is left untouched here. -/
def toggleToday (s : AppState) (id : String) : AppState :=
  let ts := updateFirst (fun t => t.id = id)
    (fun t => { t with completed := !(t.completed) }) s.tasks
  { s with tasks := ts }

/-- The `modal-checkbox` click handler (script.js lines 1141-1157): set
`completed` to the checkbox state; if the viewed date differs from
`todayKey()`, commit/clear `completedAt`, otherwise leave it for Save Day. -/
def modalToggle (s : AppState) (id : String) (checked : Bool)
    (viewDate today : String) : AppState :=
  let ts := updateFirst (fun t => t.id = id)
    (fun t =>
      let t1 := { t with completed := checked }
      if viewDate ≠ today then
        { t1 with completedAt := if checked then some viewDate else none }
      else t1)
    s.tasks
  { s with tasks := ts }

/-- The body of the Save Day `forEach` (script.js lines 819-825): a task
created today that is completed gets `completedAt = todayKey()`. -/
def finalizeTask (today : String) (t : Task) : Task :=
  if t.createdAt = some today then
    (if t.completed then { t with completedAt := some today } else t)
  else t

/-- The `saveDayBtn` click handler (script.js lines 817-834): stamp every
completed task created today with `completedAt = todayKey()`. -/
def finalizeDay (s : AppState) (today : String) : AppState :=
  { s with tasks := s.tasks.map (finalizeTask today) }

/-- The legacy-ISO normalization applied to one stored key during `initTodos`
(script.js lines 566-572): a key containing `'T'` is replaced by
`formatLocalDate(new Date(key))`; `parse` models the JS `Date` constructor on
strings (`none` = Invalid Date, in which case `formatLocalDate` returns null). -/
def migrateKey (parse : String → Option Instant) : Option String → Option String
  | none => none
  | some k =>
    if jsIncludes k 'T' then (parse k).map (fun t => formatLocalDate (localDayNum t))
    else some k

/-- The whole `initTodos` normalization loop over `state.tasks`. -/
def normalizeTasks (parse : String → Option Instant) (ts : List Task) : List Task :=
  ts.map (fun t =>
    { t with createdAt := migrateKey parse t.createdAt,
             completedAt := migrateKey parse t.completedAt })

/-- The public operations reachable from the UI, for quantifying over
operation sequences.  `modalToggle` carries the viewed date and the value of
`todayKey()` at click time. -/
inductive Op
  | create (text today id : String)
  | toggleAtToday (id : String)
  | toggleAtView (id : String) (checked : Bool) (viewDate today : String)
  | finalize (today : String)
  | delete (id : String)

/-- Apply one public operation to the state. -/
def applyOp (s : AppState) : Op → AppState
  | .create text today id => createTask s text today id
  | .toggleAtToday id => toggleToday s id
  | .toggleAtView id checked viewDate today => modalToggle s id checked viewDate today
  | .finalize today => finalizeDay s today
  | .delete id => deleteTask s id

/-- Run a sequence of public operations from a state. -/
def runOps (s : AppState) (ops : List Op) : AppState :=
  ops.foldl applyOp s

/-! ## Streak and consistency calculator (script.js lines 889-921) -/

/-- The set `doneDates` (script.js line 890): the dates where at least one
completed task exists, `new Set(state.tasks.filter(t => t.completedAt).map(t
=> t.completedAt))`; the JS `Set` keeps one entry per distinct string, modelled
by deduplicating the list. -/
def doneDates (ts : List Task) : List String :=
  (ts.filterMap (fun t => t.completedAt)).dedup

/-- The statistic `daysConsistent` (script.js line 893): `doneDates.size`. -/
def daysConsistent (ts : List Task) : Nat :=
  (doneDates ts).length

/-- The helper `isDone` (script.js lines 899-902): membership of the local key of a day
in `doneDates`. -/
def isDone (dates : List String) (n : Nat) : Bool :=
  dates.contains (formatLocalDate n)

/-- The current-streak loop (script.js lines 905-909): walk backward from
today one day at a time while the visited day is done, so
`f (n+1) = if isDone (n+1) then f n + 1 else 0` and `f 0 = 0`.  Spelled with
`Nat.rec` so that concrete day numbers evaluate top-down in the kernel. -/
def currentStreakFrom (dates : List String) (n : Nat) : Nat :=
  Nat.rec 0 (fun m ih => if isDone dates (m + 1) then ih + 1 else 0) n

/-- The longest-streak loop body (script.js lines 913-920): `count` days left
to scan starting at day `d`, running counter `temp`, best value `longest`.
Spelled with `Nat.rec` on `count` for the same evaluation reason. -/
def longestLoop (dates : List String) (count : Nat) : Nat → Nat → Nat → Nat :=
  Nat.rec (motive := fun _ => Nat → Nat → Nat → Nat)
    (fun _ _ longest => longest)
    (fun _ ih d temp longest =>
      if isDone dates d then ih (d + 1) (temp + 1) (max longest (temp + 1))
      else ih (d + 1) 0 longest)
    count

/-- The longest-streak computation for a calendar year: scan every day from
Jan 1 to Dec 31 inclusive with a running contiguous counter. -/
def longestStreakCalc (dates : List String) (year : Nat) : Nat :=
  let start := daysFromCivil year 1 1
  let stop := daysFromCivil year 12 31
  longestLoop dates (stop + 1 - start) start 0 0

/-- Repeated application of an operation (for "toggled any number of times"). -/
def iterOp (f : AppState → AppState) : Nat → AppState → AppState
  | 0, s => s
  | n + 1, s => iterOp f n (f s)

/-- The fields of a task other than the `completed` flag. -/
def taskFrame (t : Task) : String × String × Option String × Option String :=
  (t.id, t.text, t.createdAt, t.completedAt)

/-- A concrete store whose completion dates are exactly
2024-01-01, 2024-01-02, 2024-01-03 and 2024-01-05. -/
def streakState : AppState :=
  { emptyState with tasks :=
      [{ id := "1", text := "a", completed := true,
         createdAt := some "2024-01-01", completedAt := some "2024-01-01" },
       { id := "2", text := "b", completed := true,
         createdAt := some "2024-01-02", completedAt := some "2024-01-02" },
       { id := "3", text := "c", completed := true,
         createdAt := some "2024-01-03", completedAt := some "2024-01-03" },
       { id := "4", text := "d", completed := true,
         createdAt := some "2024-01-05", completedAt := some "2024-01-05" }] }

/-- Create a task on 2024-01-05, check it, save the day, then uncheck it from
the home list: the operation sequence that leaves a finalized stamp on an
unchecked task. -/
def violatingOps : List Op :=
  [Op.create "a" "2024-01-05" "1", Op.toggleAtToday "1",
   Op.finalize "2024-01-05", Op.toggleAtToday "1"]

/-- Placeholder task used as the out-of-range default of `List.getD`. -/
def noTask : Task :=
  { id := "", text := "", completed := false, createdAt := none,
    completedAt := none }

/-- A one-task store used to instantiate the universally quantified claim
theorems on concrete data: the task is unchecked but still carries a
committed `completedAt`. -/
def probeTask : Task :=
  { id := "1", text := "x", completed := false,
    createdAt := some "2024-01-05", completedAt := some "2024-01-02" }

/-- The store holding exactly `probeTask`. -/
def probeState : AppState :=
  { emptyState with tasks := [probeTask] }

/-- A store with one checked task created today, for exercising Save Day. -/
def finalizeProbeState : AppState :=
  { emptyState with tasks :=
      [{ id := "1", text := "x", completed := true,
         createdAt := some "2024-01-05", completedAt := none }] }

/-- A parse function standing in for the JS `Date` constructor on one legacy
ISO string, and a store holding a legacy-format task. -/
def probeParse : String → Option Instant :=
  fun _ => some { day := 739190, minute := 1410, tz := 60 }

/-- A task whose stored keys are in the legacy ISO format (contain `'T'`). -/
def legacyProbeState : AppState :=
  { emptyState with tasks :=
      [{ id := "1", text := "x", completed := true,
         createdAt := some "2023-12-31T23:30:00.000Z",
         completedAt := some "2023-12-31T23:30:00.000Z" }] }

/-! ## Streak-loop unfolding equations

The two loops are spelled with `Nat.rec` above; these equations restate them
in the shape of the source loops (stop condition first, then the step). -/

theorem currentStreakFrom_zero (dates : List String) :
    currentStreakFrom dates 0 = 0 := rfl

theorem currentStreakFrom_succ (dates : List String) (n : Nat) :
    currentStreakFrom dates (n + 1) =
      if isDone dates (n + 1) then currentStreakFrom dates n + 1 else 0 := rfl

theorem longestLoop_zero (dates : List String) (d temp longest : Nat) :
    longestLoop dates 0 d temp longest = longest := rfl

theorem longestLoop_succ (dates : List String) (count d temp longest : Nat) :
    longestLoop dates (count + 1) d temp longest =
      (if isDone dates d then
        longestLoop dates count (d + 1) (temp + 1) (max longest (temp + 1))
      else longestLoop dates count (d + 1) 0 longest) := rfl

/-! ## Digit-level structure of the date keys -/

theorem digitChar_lt_iff :
    ∀ a, a < 10 → ∀ b, b < 10 → (digitChar a < digitChar b ↔ a < b) := by decide

theorem natDigitsAux_small (fuel n : Nat) (acc : List Char) (h : n < 10)
    (hf : 1 ≤ fuel) :
    natDigitsAux fuel n acc = digitChar n :: acc := by
  cases fuel with
  | zero => omega
  | succ f => simp [natDigitsAux, h]

theorem natDigitsAux_big (fuel n : Nat) (acc : List Char) (h : 10 ≤ n)
    (hf : 1 ≤ fuel) :
    natDigitsAux fuel n acc =
      natDigitsAux (fuel - 1) (n / 10) (digitChar (n % 10) :: acc) := by
  cases fuel with
  | zero => omega
  | succ f => simp [natDigitsAux, Nat.not_lt.mpr h]

/-- A four-digit year renders as exactly its four decimal digits. -/
theorem natDigits_four (y : Nat) (hy1 : 1000 ≤ y) (hy2 : y ≤ 9999) :
    natDigits y = [digitChar (y / 1000), digitChar (y / 100 % 10),
      digitChar (y / 10 % 10), digitChar (y % 10)] := by
  unfold natDigits
  rw [natDigitsAux_big (y + 1) y [] (by omega) (by omega)]
  have e1 : y + 1 - 1 = y := by omega
  rw [e1, natDigitsAux_big y (y / 10) _ (by omega) (by omega)]
  have e2 : y / 10 / 10 = y / 100 := by omega
  rw [e2, natDigitsAux_big (y - 1) (y / 100) _ (by omega) (by omega)]
  have e3 : y / 100 / 10 = y / 1000 := by omega
  rw [e3, natDigitsAux_small (y - 1 - 1) (y / 1000) _ (by omega) (by omega)]

/-- A number below 100 renders under `padStart(2,'0')` as its two digits. -/
theorem padTwo_eq (m : Nat) (hm : m ≤ 99) :
    padTwo m = [digitChar (m / 10), digitChar (m % 10)] := by
  unfold padTwo natDigits
  by_cases h : m < 10
  · rw [if_pos h, natDigitsAux_small (m + 1) m [] h (by omega)]
    have e1 : m / 10 = 0 := by omega
    have e2 : m % 10 = m := by omega
    rw [e1, e2]
    rfl
  · rw [if_neg h, natDigitsAux_big (m + 1) m [] (by omega) (by omega)]
    have e1 : m + 1 - 1 = m := by omega
    rw [e1, natDigitsAux_small m (m / 10) _ (by omega) (by omega)]

/-- In the four-digit-year regime a key is the ten-character zero-padded
`YYYY-MM-DD` form. -/
theorem keyChars_digits (y m d : Nat) (hy1 : 1000 ≤ y) (hy2 : y ≤ 9999)
    (hm : m ≤ 99) (hd : d ≤ 99) :
    keyChars y m d = [digitChar (y / 1000), digitChar (y / 100 % 10),
      digitChar (y / 10 % 10), digitChar (y % 10), '-',
      digitChar (m / 10), digitChar (m % 10), '-',
      digitChar (d / 10), digitChar (d % 10)] := by
  unfold keyChars
  rw [natDigits_four y hy1 hy2, padTwo_eq m hm, padTwo_eq d hd]
  rfl

theorem lexLt_cons (a b : Char) (as bs : List Char) :
    lexLt (a :: as) (b :: bs) =
      if a < b then true else if b < a then false else lexLt as bs := rfl

theorem lexLt_cons_same (c : Char) (as bs : List Char) :
    lexLt (c :: as) (c :: bs) = lexLt as bs := by
  rw [lexLt_cons]
  simp [lt_irrefl]

theorem lexLt_digit {as bs : List Char} (a b : Nat) (ha : a < 10) (hb : b < 10) :
    lexLt (digitChar a :: as) (digitChar b :: bs) =
      if a < b then true else if b < a then false else lexLt as bs := by
  rw [lexLt_cons]
  rcases Nat.lt_trichotomy a b with h | h | h
  · rw [if_pos ((digitChar_lt_iff a ha b hb).2 h), if_pos h]
  · subst h
    have hir : ¬ digitChar a < digitChar a := fun hc =>
      absurd ((digitChar_lt_iff a ha a ha).1 hc) (lt_irrefl a)
    simp [hir, lt_irrefl]
  · have h1 : ¬ a < b := by omega
    have h2 : ¬ digitChar a < digitChar b := fun hc =>
      absurd ((digitChar_lt_iff a ha b hb).1 hc) h1
    have h3 : digitChar b < digitChar a := (digitChar_lt_iff b hb a ha).2 h
    simp [h1, h2, h3, h]

theorem iteChainStep (a b : Nat) (rest : Bool) (P : Prop)
    (h1 : a < b → P) (h2 : b < a → ¬P) (h3 : a = b → ((rest = true) ↔ P)) :
    ((if a < b then true else if b < a then false else rest) = true) ↔ P := by
  by_cases hab : a < b
  · simpa [hab] using h1 hab
  · by_cases hba : b < a
    · simpa [hab, hba] using h2 hba
    · have e : a = b := by omega
      simpa [hab, hba] using h3 e

theorem lexLt_nil : lexLt [] [] = false := rfl

set_option maxHeartbeats 1000000 in
/-- In the four-digit-year regime, lexicographic order of the keys coincides
with chronological order of the calendar days. -/
theorem keyChars_order (y1 m1 d1 y2 m2 d2 : Nat)
    (hy1 : 1000 ≤ y1) (hy2 : y1 ≤ 9999) (hm1 : m1 ≤ 99) (hd1 : d1 ≤ 99)
    (hy3 : 1000 ≤ y2) (hy4 : y2 ≤ 9999) (hm2 : m2 ≤ 99) (hd2 : d2 ≤ 99) :
    (lexLt (keyChars y1 m1 d1) (keyChars y2 m2 d2) = true) ↔
      dateLt y1 m1 d1 y2 m2 d2 := by
  rw [keyChars_digits y1 m1 d1 hy1 hy2 hm1 hd1,
    keyChars_digits y2 m2 d2 hy3 hy4 hm2 hd2]
  rw [lexLt_digit _ _ (by omega) (by omega), lexLt_digit _ _ (by omega) (by omega),
    lexLt_digit _ _ (by omega) (by omega), lexLt_digit _ _ (by omega) (by omega),
    lexLt_cons_same, lexLt_digit _ _ (by omega) (by omega),
    lexLt_digit _ _ (by omega) (by omega), lexLt_cons_same,
    lexLt_digit _ _ (by omega) (by omega), lexLt_digit _ _ (by omega) (by omega)]
  rw [lexLt_nil]
  unfold dateLt
  apply iteChainStep
  · intro h; omega
  · intro h; omega
  intro e1
  apply iteChainStep
  · intro h; omega
  · intro h; omega
  intro e2
  apply iteChainStep
  · intro h; omega
  · intro h; omega
  intro e3
  apply iteChainStep
  · intro h; omega
  · intro h; omega
  intro e4
  apply iteChainStep
  · intro h; omega
  · intro h; omega
  intro e5
  apply iteChainStep
  · intro h; omega
  · intro h; omega
  intro e6
  apply iteChainStep
  · intro h; omega
  · intro h; omega
  intro e7
  apply iteChainStep
  · intro h; omega
  · intro h; omega
  intro e8
  simp only [Bool.false_eq_true, false_iff]
  omega

/-! ## Helper lemmas about the store operations -/

theorem updateFirst_append (p : Task → Prop) [DecidablePred p] (f : Task → Task)
    (pre : List Task) (t : Task) (post : List Task)
    (hpre : ∀ u ∈ pre, ¬ p u) (ht : p t) :
    updateFirst p f (pre ++ t :: post) = pre ++ f t :: post := by
  induction pre with
  | nil => simp [updateFirst, ht]
  | cons u us ih =>
    have hu : ¬ p u := hpre u (by simp)
    simp only [List.cons_append, updateFirst, if_neg hu, List.append_eq]
    rw [ih (fun v hv => hpre v (by simp [hv]))]

theorem map_updateFirst {α : Type} (g : Task → α) (p : Task → Prop)
    [DecidablePred p] (f : Task → Task) (h : ∀ t, g (f t) = g t)
    (ts : List Task) : (updateFirst p f ts).map g = ts.map g := by
  induction ts with
  | nil => rfl
  | cons t ts ih =>
    by_cases hp : p t
    · simp [updateFirst, hp, h]
    · simp [updateFirst, hp, ih]

theorem iterOp_preserves {α : Type} (g : AppState → AppState) (P : AppState → α)
    (h : ∀ s, P (g s) = P s) :
    ∀ (n : Nat) (s : AppState), P (iterOp g n s) = P s := by
  intro n
  induction n with
  | zero => intro s; rfl
  | succ m ih =>
    intro s
    simp only [iterOp]
    rw [ih (g s), h s]

theorem finalizeTask_idem (today : String) (t : Task) :
    finalizeTask today (finalizeTask today t) = finalizeTask today t := by
  unfold finalizeTask
  by_cases h1 : t.createdAt = some today <;> by_cases h2 : t.completed <;>
    simp [h1, h2]

theorem mem_doneDates (ts : List Task) (k : String) :
    k ∈ doneDates ts ↔ ∃ t ∈ ts, t.completedAt = some k := by
  unfold doneDates
  rw [List.mem_dedup, List.mem_filterMap]

theorem getD_map (f : Task → Task) (ts : List Task) (i : Nat)
    (h : i < ts.length) (d : Task) :
    (ts.map f).getD i d = f (ts.getD i d) := by
  induction ts generalizing i with
  | nil => simp at h
  | cons t ts ih =>
    cases i with
    | zero => rfl
    | succ j =>
      have hj : j < ts.length := by simpa using h
      simpa [List.getD] using ih j hj

theorem finalizeTask_eq (today : String) (t : Task) :
    finalizeTask today t =
      { t with completedAt :=
          if t.createdAt = some today ∧ t.completed = true then some today
          else t.completedAt } := by
  obtain ⟨i, x, c, ca, co⟩ := t
  unfold finalizeTask
  by_cases h1 : ca = some today <;> by_cases h2 : c = true <;> simp_all

/-! ## Claim theorems -/

/-- Claim C1 (code-bug evidence): the invariant "`completed = false` implies
`completedAt` is absent" is violated by a reachable state.  Create a task
while today is 2024-01-05, check it from the home list, press Save Day, then
uncheck it from the home list: the handler at script.js lines 743-752 flips
`completed` without clearing `completedAt`, leaving the task with
`completed = false` and `completedAt = some "2024-01-05"`. -/
theorem claim_C1_invariant_violated :
    (runOps emptyState violatingOps).tasks =
      [{ id := "1", text := "a", completed := false,
         createdAt := some "2024-01-05", completedAt := some "2024-01-05" }]
    ∧ ∃ t ∈ (runOps emptyState violatingOps).tasks,
        t.completed = false ∧ t.completedAt ≠ none := by
  decide

/-- Claim C5: for a collection whose completion dates are exactly 2024-01-01,
2024-01-02, 2024-01-03 and 2024-01-05, the streak calculator yields longest
streak 3 for year 2024, and current streak 1 when today is taken to be
2024-01-05 (the backward walk stops at the absent 2024-01-04). -/
theorem claim_C5_streaks :
    doneDates streakState.tasks =
      ["2024-01-01", "2024-01-02", "2024-01-03", "2024-01-05"]
    ∧ currentStreakFrom (doneDates streakState.tasks) (daysFromCivil 2024 1 5) = 1
    ∧ longestStreakCalc (doneDates streakState.tasks) 2024 = 3 := by
  decide

/-- Claim C8: `createTask` is a no-op (state unchanged) when the text trims to
empty, and otherwise prepends a task carrying the trimmed text,
`completed = false`, `completedAt` absent and `createdAt` equal to the local
date key of the creation instant; the collection grows by exactly one. -/
theorem claim_C8_createTask (s : AppState) (text today id : String) :
    createTask s text today id =
      (if jsTrim text = "" then s
       else { s with tasks :=
          { id := id, text := jsTrim text, completed := false,
            createdAt := some today, completedAt := none } :: s.tasks })
    ∧ (createTask s text today id).tasks.length =
      (if jsTrim text = "" then s.tasks.length else s.tasks.length + 1) := by
  constructor
  · rfl
  · by_cases h : jsTrim text = "" <;> simp [createTask, h]

/-- Claim C2: toggling a task while the viewed date equals today's local date
key — from the home list or from the calendar overlay — flips only the
`completed` flag: the `completedAt` field (together with id, text and
createdAt) of every task is unchanged, for any number of repetitions and
whatever value `completedAt` currently holds; the home-list toggle flips the
first matching task's flag. -/
theorem claim_C2_today_toggle (s : AppState) (id today : String)
    (checked : Bool) (n : Nat) (pre : List Task) (t : Task) (post : List Task)
    (h1 : s.tasks = pre ++ t :: post) (h2 : ∀ u ∈ pre, u.id ≠ id)
    (h3 : t.id = id) :
    (iterOp (fun st => toggleToday st id) n s).tasks.map taskFrame
        = s.tasks.map taskFrame
    ∧ (iterOp (fun st => modalToggle st id checked today today) n s).tasks.map
        taskFrame = s.tasks.map taskFrame
    ∧ (toggleToday s id).tasks =
        pre ++ { t with completed := !(t.completed) } :: post := by
  refine ⟨?_, ?_, ?_⟩
  · exact iterOp_preserves _ (fun st => st.tasks.map taskFrame)
      (fun st => map_updateFirst taskFrame (fun u => u.id = id)
        (fun u => { u with completed := !(u.completed) }) (fun u => rfl)
        st.tasks) n s
  · refine iterOp_preserves _ (fun st => st.tasks.map taskFrame)
      (fun st => map_updateFirst taskFrame (fun u => u.id = id) _
        (fun u => ?_) st.tasks) n s
    have hne : ¬ (today ≠ today) := fun h => h rfl
    simp only [if_neg hne]
    rfl
  · show updateFirst (fun u => u.id = id)
      (fun u => { u with completed := !(u.completed) }) s.tasks = _
    rw [h1]
    exact updateFirst_append _ _ pre t post h2 h3

/-- Witness for claim C2 at a concrete one-task store, toggled twice. -/
theorem claim_C2_today_toggle_witness :
    (probeState.tasks = [] ++ probeTask :: []
      ∧ (∀ u ∈ ([] : List Task), u.id ≠ "1") ∧ probeTask.id = "1")
    ∧ ((iterOp (fun st => toggleToday st "1") 2 probeState).tasks.map taskFrame
        = probeState.tasks.map taskFrame
      ∧ (iterOp (fun st => modalToggle st "1" true "2024-01-05" "2024-01-05") 2
          probeState).tasks.map taskFrame = probeState.tasks.map taskFrame
      ∧ (toggleToday probeState "1").tasks =
          [] ++ { probeTask with completed := !(probeTask.completed) } :: []) :=
  ⟨⟨by decide, by decide, by decide⟩,
    claim_C2_today_toggle probeState "1" "2024-01-05" true 2 [] probeTask []
      (by decide) (by decide) (by decide)⟩

/-- Claim C3: Save Day sets `completedAt = today` on precisely the tasks
whose `createdAt` equals today and whose `completed` is true, and applying it
twice in a row yields the same state as applying it once. -/
theorem claim_C3_finalize (s : AppState) (today : String) (i : Nat)
    (h1 : i < s.tasks.length) :
    (finalizeDay s today).tasks.getD i noTask =
      { s.tasks.getD i noTask with
          completedAt :=
            if ((s.tasks.getD i noTask).createdAt = some today
                ∧ (s.tasks.getD i noTask).completed = true)
            then some today else (s.tasks.getD i noTask).completedAt }
    ∧ finalizeDay (finalizeDay s today) today = finalizeDay s today := by
  constructor
  · show (s.tasks.map (finalizeTask today)).getD i noTask = _
    rw [getD_map _ _ _ h1, finalizeTask_eq]
  · show ({ s with tasks :=
        (s.tasks.map (finalizeTask today)).map (finalizeTask today) } : AppState)
      = _
    rw [List.map_map]
    have hmap : s.tasks.map (finalizeTask today ∘ finalizeTask today)
        = s.tasks.map (finalizeTask today) :=
      List.map_congr_left (fun a _ => finalizeTask_idem today a)
    rw [hmap]
    rfl

/-- Witness for claim C3 on a store with one checked task created today. -/
theorem claim_C3_finalize_witness :
    0 < finalizeProbeState.tasks.length
    ∧ ((finalizeDay finalizeProbeState "2024-01-05").tasks.getD 0 noTask =
        { finalizeProbeState.tasks.getD 0 noTask with
            completedAt :=
              if ((finalizeProbeState.tasks.getD 0 noTask).createdAt
                    = some "2024-01-05"
                  ∧ (finalizeProbeState.tasks.getD 0 noTask).completed = true)
              then some "2024-01-05"
              else (finalizeProbeState.tasks.getD 0 noTask).completedAt }
      ∧ finalizeDay (finalizeDay finalizeProbeState "2024-01-05") "2024-01-05"
          = finalizeDay finalizeProbeState "2024-01-05") :=
  ⟨by decide, claim_C3_finalize finalizeProbeState "2024-01-05" 0 (by decide)⟩

/-- Claim C4: toggling a task from the calendar view of a date `D` other than
today sets `completed` to the checkbox state and `completedAt` to `D` exactly
when the result is checked, clearing it to absent when unchecked. -/
theorem claim_C4_past_toggle (s : AppState) (id : String) (checked : Bool)
    (D today : String) (hD : D ≠ today) (pre : List Task) (t : Task)
    (post : List Task) (h1 : s.tasks = pre ++ t :: post)
    (h2 : ∀ u ∈ pre, u.id ≠ id) (h3 : t.id = id) :
    (modalToggle s id checked D today).tasks =
      pre ++ ({ t with
                  completed := checked,
                  completedAt := if checked then some D else none }) :: post := by
  show updateFirst (fun u => u.id = id) _ s.tasks = _
  rw [h1, updateFirst_append _ _ pre t post h2 h3]
  simp only [if_pos hD]

/-- Witness for claim C4: checking the probe task while viewing 2024-01-02. -/
theorem claim_C4_past_toggle_witness :
    ("2024-01-02" ≠ "2024-01-05"
      ∧ probeState.tasks = [] ++ probeTask :: []
      ∧ (∀ u ∈ ([] : List Task), u.id ≠ "1") ∧ probeTask.id = "1")
    ∧ (modalToggle probeState "1" true "2024-01-02" "2024-01-05").tasks =
        [] ++ ({ probeTask with
                   completed := true,
                   completedAt := if true then some "2024-01-02" else none })
          :: [] :=
  ⟨⟨by decide, by decide, by decide, by decide⟩,
    claim_C4_past_toggle probeState "1" true "2024-01-02" "2024-01-05"
      (by decide) [] probeTask [] (by decide) (by decide) (by decide)⟩

/-- Claim C6: `doneDates` is recomputed as the duplicate-free list of present
`completedAt` values (membership is exactly "some task carries the date"),
`daysConsistent` is its cardinality, and after deleting the sole task carrying
a date the date is absent from the recomputation. -/
theorem claim_C6_doneDates (s : AppState) (D delId : String)
    (hsole : ∀ t ∈ s.tasks, t.completedAt = some D → t.id = delId) :
    (∀ k : String, k ∈ doneDates s.tasks ↔ ∃ t ∈ s.tasks, t.completedAt = some k)
    ∧ (doneDates s.tasks).Nodup
    ∧ daysConsistent s.tasks = (doneDates s.tasks).length
    ∧ D ∉ doneDates (deleteTask s delId).tasks := by
  refine ⟨fun k => mem_doneDates _ _, List.nodup_dedup _, rfl, ?_⟩
  intro hmem
  rw [mem_doneDates] at hmem
  obtain ⟨t, ht, hAt⟩ := hmem
  have hsplit : t ∈ s.tasks ∧ ¬ (t.id = delId) := by
    simpa [deleteTask, List.mem_filter] using ht
  exact hsplit.2 (hsole t hsplit.1 hAt)

/-- Witness for claim C6: deleting the only carrier of 2024-01-02. -/
theorem claim_C6_doneDates_witness :
    (∀ t ∈ probeState.tasks, t.completedAt = some "2024-01-02" → t.id = "1")
    ∧ ((∀ k : String, k ∈ doneDates probeState.tasks ↔
          ∃ t ∈ probeState.tasks, t.completedAt = some k)
      ∧ (doneDates probeState.tasks).Nodup
      ∧ daysConsistent probeState.tasks = (doneDates probeState.tasks).length
      ∧ "2024-01-02" ∉ doneDates (deleteTask probeState "1").tasks) :=
  ⟨by decide, claim_C6_doneDates probeState "2024-01-02" "1" (by decide)⟩

/-- Claim C9: during load, every stored key containing the time-of-day
separator `'T'` is replaced by the local key computed from the legacy value's
own timestamp (null when the legacy value does not parse), keys without `'T'`
and absent keys are untouched, and no task is dropped or rejected. -/
theorem claim_C9_migration (parse : String → Option Instant) (ts : List Task)
    (i : Nat) (h1 : i < ts.length) :
    (normalizeTasks parse ts).length = ts.length
    ∧ (normalizeTasks parse ts).getD i noTask =
        { ts.getD i noTask with
            createdAt := migrateKey parse (ts.getD i noTask).createdAt,
            completedAt := migrateKey parse (ts.getD i noTask).completedAt }
    ∧ (∀ k : String, jsIncludes k 'T' = false →
        migrateKey parse (some k) = some k)
    ∧ (∀ k : String, jsIncludes k 'T' = true →
        migrateKey parse (some k) =
          (parse k).map (fun u => formatLocalDate (localDayNum u)))
    ∧ migrateKey parse none = none := by
  refine ⟨by simp [normalizeTasks], ?_, ?_, ?_, rfl⟩
  · show (ts.map _).getD i noTask = _
    rw [getD_map _ _ _ h1]
  · intro k hk
    simp [migrateKey, hk]
  · intro k hk
    simp [migrateKey, hk]

/-- Witness for claim C9 on a store holding one legacy-ISO task. -/
theorem claim_C9_migration_witness :
    0 < legacyProbeState.tasks.length
    ∧ ((normalizeTasks probeParse legacyProbeState.tasks).length =
        legacyProbeState.tasks.length
      ∧ (normalizeTasks probeParse legacyProbeState.tasks).getD 0 noTask =
          { legacyProbeState.tasks.getD 0 noTask with
              createdAt := migrateKey probeParse
                (legacyProbeState.tasks.getD 0 noTask).createdAt,
              completedAt := migrateKey probeParse
                (legacyProbeState.tasks.getD 0 noTask).completedAt }
      ∧ (∀ k : String, jsIncludes k 'T' = false →
          migrateKey probeParse (some k) = some k)
      ∧ (∀ k : String, jsIncludes k 'T' = true →
          migrateKey probeParse (some k) =
            (probeParse k).map (fun u => formatLocalDate (localDayNum u)))
      ∧ migrateKey probeParse none = none) :=
  ⟨by decide, claim_C9_migration probeParse legacyProbeState.tasks 0 (by decide)⟩

/-- Claim C10: Save Day changes at most the `completedAt` of tasks created
today and completed: `title`, `appTitle`, `theme`, the number of tasks, and
every task's id, text, completed flag and creation day are unchanged, and a
task with a different creation day or with `completed = false` is entirely
unchanged. -/
theorem claim_C10_finalize_frame (s : AppState) (today : String) (i : Nat)
    (h1 : i < s.tasks.length) :
    (finalizeDay s today).title = s.title
    ∧ (finalizeDay s today).appTitle = s.appTitle
    ∧ (finalizeDay s today).theme = s.theme
    ∧ (finalizeDay s today).tasks.length = s.tasks.length
    ∧ ((finalizeDay s today).tasks.getD i noTask).id = (s.tasks.getD i noTask).id
    ∧ ((finalizeDay s today).tasks.getD i noTask).text
        = (s.tasks.getD i noTask).text
    ∧ ((finalizeDay s today).tasks.getD i noTask).completed
        = (s.tasks.getD i noTask).completed
    ∧ ((finalizeDay s today).tasks.getD i noTask).createdAt
        = (s.tasks.getD i noTask).createdAt
    ∧ (¬((s.tasks.getD i noTask).createdAt = some today
          ∧ (s.tasks.getD i noTask).completed = true) →
        (finalizeDay s today).tasks.getD i noTask = s.tasks.getD i noTask) := by
  have key : (finalizeDay s today).tasks.getD i noTask =
      { s.tasks.getD i noTask with
          completedAt :=
            if ((s.tasks.getD i noTask).createdAt = some today
                ∧ (s.tasks.getD i noTask).completed = true)
            then some today else (s.tasks.getD i noTask).completedAt } := by
    show (s.tasks.map (finalizeTask today)).getD i noTask = _
    rw [getD_map _ _ _ h1, finalizeTask_eq]
  refine ⟨rfl, rfl, rfl, by simp [finalizeDay], ?_, ?_, ?_, ?_, ?_⟩
  · rw [key]
  · rw [key]
  · rw [key]
  · rw [key]
  · intro hno
    rw [key, if_neg hno]

/-- Witness for claim C10 on the probe store (unchecked task, so Save Day
leaves it entirely unchanged). -/
theorem claim_C10_finalize_frame_witness :
    0 < probeState.tasks.length
    ∧ ((finalizeDay probeState "2024-01-05").title = probeState.title
      ∧ (finalizeDay probeState "2024-01-05").appTitle = probeState.appTitle
      ∧ (finalizeDay probeState "2024-01-05").theme = probeState.theme
      ∧ (finalizeDay probeState "2024-01-05").tasks.length
          = probeState.tasks.length
      ∧ ((finalizeDay probeState "2024-01-05").tasks.getD 0 noTask).id
          = (probeState.tasks.getD 0 noTask).id
      ∧ ((finalizeDay probeState "2024-01-05").tasks.getD 0 noTask).text
          = (probeState.tasks.getD 0 noTask).text
      ∧ ((finalizeDay probeState "2024-01-05").tasks.getD 0 noTask).completed
          = (probeState.tasks.getD 0 noTask).completed
      ∧ ((finalizeDay probeState "2024-01-05").tasks.getD 0 noTask).createdAt
          = (probeState.tasks.getD 0 noTask).createdAt
      ∧ (¬((probeState.tasks.getD 0 noTask).createdAt = some "2024-01-05"
            ∧ (probeState.tasks.getD 0 noTask).completed = true) →
          (finalizeDay probeState "2024-01-05").tasks.getD 0 noTask
            = probeState.tasks.getD 0 noTask)) :=
  ⟨by decide, claim_C10_finalize_frame probeState "2024-01-05" 0 (by decide)⟩

/-- Claim C7 (amended): for calendar days whose year has four digits, the
local date key is the ten-character `YYYY-MM-DD` form with zero-padded month
and day, lexicographic order of keys coincides with chronological order of
days, and the runtime `todayKey` is computed from the local calendar
components rather than a UTC-normalized slice: at 00:30 local on 2024-01-01
with a +60-minute offset it yields "2024-01-01" where the shadowed UTC-slice
version yields "2023-12-31". -/
theorem claim_C7_localKey (y1 m1 d1 y2 m2 d2 : Nat)
    (hy1 : 1000 ≤ y1) (hy2 : y1 ≤ 9999) (hm1 : 1 ≤ m1) (hm2 : m1 ≤ 12)
    (hd1 : 1 ≤ d1) (hd2 : d1 ≤ 31) (hy3 : 1000 ≤ y2) (hy4 : y2 ≤ 9999)
    (hm3 : 1 ≤ m2) (hm4 : m2 ≤ 12) (hd3 : 1 ≤ d2) (hd4 : d2 ≤ 31) :
    keyChars y1 m1 d1 =
      [digitChar (y1 / 1000), digitChar (y1 / 100 % 10),
       digitChar (y1 / 10 % 10), digitChar (y1 % 10), '-',
       digitChar (m1 / 10), digitChar (m1 % 10), '-',
       digitChar (d1 / 10), digitChar (d1 % 10)]
    ∧ ((lexLt (keyChars y1 m1 d1) (keyChars y2 m2 d2) = true) ↔
        dateLt y1 m1 d1 y2 m2 d2)
    ∧ todayKey { day := 739190, minute := 1410, tz := 60 } = "2024-01-01"
    ∧ utcSliceKey { day := 739190, minute := 1410, tz := 60 } = "2023-12-31"
    ∧ todayKey { day := 739190, minute := 1410, tz := 60 } ≠
        utcSliceKey { day := 739190, minute := 1410, tz := 60 } :=
  ⟨keyChars_digits y1 m1 d1 hy1 hy2 (by omega) (by omega),
   keyChars_order y1 m1 d1 y2 m2 d2 hy1 hy2 (by omega) (by omega) hy3 hy4
     (by omega) (by omega),
   by decide, by decide, by decide⟩

/-- Witness for claim C7 at the days 2024-03-09 and 2024-11-02. -/
theorem claim_C7_localKey_witness :
    (1000 ≤ 2024 ∧ (2024 : Nat) ≤ 9999 ∧ 1 ≤ 3 ∧ (3 : Nat) ≤ 12
      ∧ 1 ≤ 9 ∧ (9 : Nat) ≤ 31 ∧ 1 ≤ 11 ∧ (11 : Nat) ≤ 12
      ∧ 1 ≤ 2 ∧ (2 : Nat) ≤ 31)
    ∧ (keyChars 2024 3 9 =
        [digitChar (2024 / 1000), digitChar (2024 / 100 % 10),
         digitChar (2024 / 10 % 10), digitChar (2024 % 10), '-',
         digitChar (3 / 10), digitChar (3 % 10), '-',
         digitChar (9 / 10), digitChar (9 % 10)]
      ∧ ((lexLt (keyChars 2024 3 9) (keyChars 2024 11 2) = true) ↔
          dateLt 2024 3 9 2024 11 2)
      ∧ todayKey { day := 739190, minute := 1410, tz := 60 } = "2024-01-01"
      ∧ utcSliceKey { day := 739190, minute := 1410, tz := 60 } = "2023-12-31"
      ∧ todayKey { day := 739190, minute := 1410, tz := 60 } ≠
          utcSliceKey { day := 739190, minute := 1410, tz := 60 }) :=
  ⟨by decide,
    claim_C7_localKey 2024 3 9 2024 11 2 (by decide) (by decide) (by decide)
      (by decide) (by decide) (by decide) (by decide) (by decide) (by decide)
      (by decide) (by decide) (by decide)⟩

/-- Claim C7 counterexample: over arbitrary points in time the claimed
coincidence of lexicographic and chronological order fails, because the
source never zero-pads the year: the key of the chronologically later day
1000-01-01 is lexicographically smaller than the key of 999-12-31. -/
theorem claim_C7_counterexample :
    daysFromCivil 999 12 31 < daysFromCivil 1000 1 1
    ∧ formatLocalDate (daysFromCivil 999 12 31) = "999-12-31"
    ∧ formatLocalDate (daysFromCivil 1000 1 1) = "1000-01-01"
    ∧ lexLt (formatLocalDate (daysFromCivil 1000 1 1)).data
        (formatLocalDate (daysFromCivil 999 12 31)).data = true := by
  decide

end LegacyArc
